import Mathlib

/-!
Verification development for the studyai-generator repository.

The Python sources are shallowly embedded:
* strings are `List Char` (named `Str` here) so that Python's `str.split`,
  `str.strip` and `in` can be modelled and reasoned about directly;
* fallible Python code returns `Except PyErr _`, where `PyErr` covers the
  exception classes the sources can raise on the modelled paths;
* the `json` standard-library parser is modelled by an executable
  recursive-descent parser `jsonLoads` over a decimal-exact value type `JVal`
  (Python's int/float distinction for numbers is not tracked; it is irrelevant
  to every property proved here);
* network calls (`openai` / `groq` clients) are oracles passed as arguments.
-/

namespace StudyAI

/-- Python strings, embedded as lists of characters. -/
abbrev Str := List Char

/-- Whitespace as recognised by Python's `str.split()` / `str.strip()`
(ASCII subset; the sources never meet the exotic unicode cases). -/
def pyIsSpace (c : Char) : Bool :=
  c == ' ' || c == '\t' || c == '\n' || c == '\r' || c == '\x0b' || c == '\x0c'

/-- Left part of Python `str.strip`: drop leading whitespace. -/
def ltrimL (s : Str) : Str := s.dropWhile pyIsSpace

/-- Right part of Python `str.strip`: drop trailing whitespace. -/
def rtrimL (s : Str) : Str := (ltrimL s.reverse).reverse

/-- Python `str.strip()`. -/
def trimL (s : Str) : Str := rtrimL (ltrimL s)

/-- Boolean prefix test on character lists. -/
def isPrefixL : Str → Str → Bool
  | [], _ => true
  | _ :: _, [] => false
  | a :: as, b :: bs => a == b && isPrefixL as bs

/-- Split a string at the first occurrence of `sep` (left-to-right scan):
`some (pre, post)` with the separator removed, or `none` when `sep` does not
occur.  This is the primitive underlying Python's `in` and `str.split`. -/
def breakOn (sep : Str) : Str → Option (Str × Str)
  | [] => if isPrefixL sep [] then some ([], []) else none
  | c :: rest =>
    if isPrefixL sep (c :: rest) then some ([], (c :: rest).drop sep.length)
    else
      match breakOn sep rest with
      | some (pre, post) => some (c :: pre, post)
      | none => none

/-- Python's substring test `sep in s`. -/
def containsL (sep s : Str) : Bool := (breakOn sep s).isSome

/-- Everything before the first occurrence of `sep` (the whole string when
`sep` does not occur). -/
def beforeFirst (sep s : Str) : Str :=
  match breakOn sep s with
  | some (pre, _) => pre
  | none => s

/-- Everything after the first occurrence of `sep` (the whole string when
`sep` does not occur). -/
def afterFirst (sep s : Str) : Str :=
  match breakOn sep s with
  | some (_, post) => post
  | none => s

/-- Fuelled worker for `pySplit`; the fuel bounds the number of separator
occurrences, so `length s + 1` is always enough. -/
def pySplitFuel : Nat → Str → Str → List Str
  | 0, _, s => [s]
  | fuel + 1, sep, s =>
    match breakOn sep s with
    | none => [s]
    | some (pre, post) => pre :: pySplitFuel fuel sep post

/-- Python `s.split(sep)` for a non-empty separator: split at every
non-overlapping occurrence, scanning left to right, keeping empty parts. -/
def pySplit (sep s : Str) : List Str := pySplitFuel (s.length + 1) sep s

/-- The Python exceptions arising on the embedded paths. -/
inductive PyErr where
  | jsonDecodeError (msg : Str)
  | typeError (msg : Str)
  | indexError
  | zeroDivisionError
deriving DecidableEq, Repr

/-- Python list indexing `xs[i]`: raises `IndexError` when out of range. -/
def pyGet (xs : List α) (i : Nat) : Except PyErr α :=
  match xs.get? i with
  | some x => .ok x
  | none => .error .indexError

/-! ## The `json` standard library, as used by `core/generator.py`

JSON values; numbers are kept decimal-exact as `mantissa * 10 ^ exponent`. -/

inductive JVal where
  | null
  | bool (b : Bool)
  | num (mantissa : Int) (exponent : Int)
  | str (s : Str)
  | arr (items : List JVal)
  | obj (fields : List (Str × JVal))

/-- JSON whitespace (RFC 8259). -/
def jsonWs (c : Char) : Bool := c == ' ' || c == '\t' || c == '\n' || c == '\r'

/-- Skip JSON whitespace. -/
def skipWs (s : Str) : Str := s.dropWhile jsonWs

/-- Hexadecimal digit value, for `\uXXXX` escapes. -/
def hexVal (c : Char) : Option Nat :=
  if '0' ≤ c ∧ c ≤ '9' then some (c.toNat - '0'.toNat)
  else if 'a' ≤ c ∧ c ≤ 'f' then some (c.toNat - 'a'.toNat + 10)
  else if 'A' ≤ c ∧ c ≤ 'F' then some (c.toNat - 'A'.toNat + 10)
  else none

/-- Body of a JSON string literal, after the opening quote: returns the decoded
characters and the remainder after the closing quote. -/
def parseStringBody : Str → Except Str (Str × Str)
  | [] => .error "Unterminated string".data
  | '"' :: rest => .ok ([], rest)
  | '\\' :: rest =>
    match rest with
    | '"' :: r => (parseStringBody r).map (fun p => ('"' :: p.1, p.2))
    | '\\' :: r => (parseStringBody r).map (fun p => ('\\' :: p.1, p.2))
    | '/' :: r => (parseStringBody r).map (fun p => ('/' :: p.1, p.2))
    | 'b' :: r => (parseStringBody r).map (fun p => ('\x08' :: p.1, p.2))
    | 'f' :: r => (parseStringBody r).map (fun p => ('\x0c' :: p.1, p.2))
    | 'n' :: r => (parseStringBody r).map (fun p => ('\n' :: p.1, p.2))
    | 'r' :: r => (parseStringBody r).map (fun p => ('\r' :: p.1, p.2))
    | 't' :: r => (parseStringBody r).map (fun p => ('\t' :: p.1, p.2))
    | 'u' :: h1 :: h2 :: h3 :: h4 :: r =>
      match hexVal h1, hexVal h2, hexVal h3, hexVal h4 with
      | some a, some b, some c, some d =>
        (parseStringBody r).map
          (fun p => (Char.ofNat (((a * 16 + b) * 16 + c) * 16 + d) :: p.1, p.2))
      | _, _, _, _ => .error "Invalid \\uXXXX escape".data
    | _ => .error "Invalid \\escape".data
  | c :: rest => (parseStringBody rest).map (fun p => (c :: p.1, p.2))

/-- Digits of a decimal number as a natural number. -/
def digitsToNat (ds : Str) : Nat :=
  ds.foldl (fun n c => n * 10 + (c.toNat - '0'.toNat)) 0

/-- A JSON number literal: optional minus, integer part without leading
zeros, optional fraction, optional exponent. -/
def parseNumber (s : Str) : Except Str (JVal × Str) :=
  let (neg, s1) : Bool × Str :=
    match s with
    | '-' :: r => (true, r)
    | _ => (false, s)
  let (intDigits, s2) := s1.span Char.isDigit
  if intDigits = [] then .error "Expecting value".data
  else if intDigits.length > 1 ∧ intDigits.head? = some '0' then
    .error "Expecting value".data
  else
    let (fracDigits, s3) : Str × Str :=
      match s2 with
      | '.' :: r => r.span Char.isDigit
      | _ => ([], s2)
    if s2.head? = some '.' ∧ fracDigits = [] then .error "Expecting value".data
    else
      let (expPart, s4) : Option (Bool × Str) × Str :=
        match s3 with
        | 'e' :: r | 'E' :: r =>
          match r with
          | '+' :: r2 => (some (false, (r2.span Char.isDigit).1), (r2.span Char.isDigit).2)
          | '-' :: r2 => (some (true, (r2.span Char.isDigit).1), (r2.span Char.isDigit).2)
          | _ => (some (false, (r.span Char.isDigit).1), (r.span Char.isDigit).2)
        | _ => (none, s3)
      match expPart with
      | some (_, []) => .error "Expecting value".data
      | some (expNeg, expDigits) =>
        let m : Int := Int.ofNat (digitsToNat (intDigits ++ fracDigits))
        let e : Int := (if expNeg then -(Int.ofNat (digitsToNat expDigits))
                        else Int.ofNat (digitsToNat expDigits)) - Int.ofNat fracDigits.length
        .ok (JVal.num (if neg then -m else m) e, s4)
      | none =>
        let m : Int := Int.ofNat (digitsToNat (intDigits ++ fracDigits))
        .ok (JVal.num (if neg then -m else m) (-(Int.ofNat fracDigits.length)), s3)

/-- Insert into an ordered association list the way Python `dict` assignment
does: replace in place when the key exists, append otherwise. -/
def objSet (fields : List (Str × JVal)) (k : Str) (v : JVal) : List (Str × JVal) :=
  match fields with
  | [] => [(k, v)]
  | (k', v') :: rest => if k' = k then (k', v) :: rest else (k', v') :: objSet rest k v

mutual

/-- Recursive-descent JSON value parser (fuel-indexed). -/
def parseVal : Nat → Str → Except Str (JVal × Str)
  | 0, _ => .error "Recursion limit".data
  | fuel + 1, s =>
    match skipWs s with
    | [] => .error "Expecting value".data
    | '"' :: rest => (parseStringBody rest).map (fun p => (JVal.str p.1, p.2))
    | '[' :: rest =>
      match skipWs rest with
      | ']' :: r2 => .ok (JVal.arr [], r2)
      | r1 => (parseItems fuel r1).map (fun p => (JVal.arr p.1, p.2))
    | '{' :: rest =>
      match skipWs rest with
      | '}' :: r2 => .ok (JVal.obj [], r2)
      | r1 =>
        (parseMembers fuel r1).map
          (fun p => (JVal.obj (p.1.foldl (fun acc kv => objSet acc kv.1 kv.2) []), p.2))
    | 'n' :: rest =>
      if isPrefixL "ull".data rest then .ok (JVal.null, rest.drop 3)
      else .error "Expecting value".data
    | 't' :: rest =>
      if isPrefixL "rue".data rest then .ok (JVal.bool true, rest.drop 3)
      else .error "Expecting value".data
    | 'f' :: rest =>
      if isPrefixL "alse".data rest then .ok (JVal.bool false, rest.drop 4)
      else .error "Expecting value".data
    | c :: rest =>
      if c == '-' || c.isDigit then parseNumber (c :: rest)
      else .error "Expecting value".data

/-- One-or-more comma-separated array items, up to the closing bracket. -/
def parseItems : Nat → Str → Except Str (List JVal × Str)
  | 0, _ => .error "Recursion limit".data
  | fuel + 1, s =>
    match parseVal fuel s with
    | .error e => .error e
    | .ok (v, r) =>
      match skipWs r with
      | ',' :: r2 =>
        match parseItems fuel r2 with
        | .error e => .error e
        | .ok (vs, r3) => .ok (v :: vs, r3)
      | ']' :: r2 => .ok ([v], r2)
      | _ => .error "Expecting comma delimiter".data

/-- One-or-more comma-separated object members, up to the closing brace. -/
def parseMembers : Nat → Str → Except Str (List (Str × JVal) × Str)
  | 0, _ => .error "Recursion limit".data
  | fuel + 1, s =>
    match skipWs s with
    | '"' :: r =>
      match parseStringBody r with
      | .error e => .error e
      | .ok (k, r1) =>
        match skipWs r1 with
        | ':' :: r2 =>
          match parseVal fuel r2 with
          | .error e => .error e
          | .ok (v, r3) =>
            match skipWs r3 with
            | ',' :: r4 =>
              match parseMembers fuel r4 with
              | .error e => .error e
              | .ok (ms, r5) => .ok ((k, v) :: ms, r5)
            | '}' :: r4 => .ok ([(k, v)], r4)
            | _ => .error "Expecting comma delimiter".data
        | _ => .error "Expecting colon delimiter".data
    | _ => .error "Expecting property name".data

end

/-- Python `json.loads`: parse one value and require only whitespace after it.
Failures are `json.JSONDecodeError`. -/
def jsonLoads (s : Str) : Except PyErr JVal :=
  match parseVal (s.length + 1) s with
  | .error m => .error (.jsonDecodeError m)
  | .ok (v, rest) =>
    if skipWs rest = [] then .ok v else .error (.jsonDecodeError "Extra data".data)

/-- Field lookup in a parsed JSON object (`none` on non-objects too). -/
def jGet (j : JVal) (k : Str) : Option JVal :=
  match j with
  | .obj fields => (fields.find? (fun kv => kv.1 = k)).map (·.2)
  | _ => none

/-- Python item assignment `result[k] = v`: succeeds on a dict, raises
`TypeError` on every other value (int, str, list, ...). -/
def setItem (j : JVal) (k : Str) (v : JVal) : Except PyErr JVal :=
  match j with
  | .obj fields => .ok (.obj (objSet fields k v))
  | _ => .error (.typeError "object does not support item assignment".data)

/-! ## `core/generator.py` — `StudyMaterialGenerator`

The provider call `self.provider.generate(prompt, system_prompt)` is a
boundary: each generator method is embedded as a function of the `response`
text and `metrics` value that call produced.

Note on the source file: `core/generator.py` as committed is the result of a
botched edit.  Line 107 reads `return json.loads(response)json(response)`
(a Python syntax error), the orphaned text after it holds a quiz-shaped
fallback dict that no longer belongs to any method, `generate_quiz`'s own
`except` block returns the study-guide-shaped fallback, and
`generate_study_guide` is cut off mid-statement.  The embedding below takes
the methods as written where they are syntactically intact
(`generate_flashcards`, `generate_quiz`, `generate_summary`) and reads the
evident `return json.loads(response)` for `_extract_json`. -/

/-- The fence tag `'''json` (with backticks in the source). -/
def fenceJson : Str := "```json".data

/-- The plain fence `'''` (with backticks in the source). -/
def fence : Str := "```".data

/-- `StudyMaterialGenerator._extract_json` (generator.py lines 95-107):
strip the first markdown code block when one is present, `strip()`, then
`json.loads`. -/
def extractJsonL (response : Str) : Except PyErr JVal := do
  let response ←
    if containsL fenceJson response then do
      let part ← pyGet (pySplit fenceJson response) 1
      pyGet (pySplit fence part) 0
    else if containsL fence response then do
      let part ← pyGet (pySplit fence response) 1
      pyGet (pySplit fence part) 0
    else pure response
  jsonLoads (trimL response)

/-- The candidate text as the spec sentence describes it: the content between
the first `'''json` tag and the next `'''` fence, else the content of the
first plain fence pair, else the whole string. -/
def claimedCandidate (response : Str) : Str :=
  if containsL fenceJson response then
    beforeFirst fence (afterFirst fenceJson response)
  else if containsL fence response then
    beforeFirst fence (afterFirst fence response)
  else response

/-- The candidate text as the committed `split('''json')[1].split('''')[0]`
chain actually computes it: in the tagged branch the text after the first
`'''json` is first truncated at the next non-overlapping `'''json`
occurrence (that is what `split(...)[1]` returns) and only then at the next
`'''` fence. -/
def splitCandidate (response : Str) : Str :=
  if containsL fenceJson response then
    beforeFirst fence (beforeFirst fenceJson (afterFirst fenceJson response))
  else if containsL fence response then
    beforeFirst fence (afterFirst fence response)
  else response

/-- The fallback dict built by `generate_flashcards`'s `except` branch
(generator.py lines 44-49). -/
def flashcardsFallback (e : Str) (metrics : JVal) (response : Str) : JVal :=
  .obj [("flashcards".data,
          .arr [.obj [("question".data, .str "Error parsing response".data),
                      ("answer".data, .str e),
                      ("difficulty".data, .str "error".data),
                      ("topic".data, .str "error".data)]]),
        ("metrics".data, metrics),
        ("raw_response".data, .str response)]

/-- `StudyMaterialGenerator.generate_flashcards`, from the provider response
onwards (generator.py lines 36-49): extract JSON, attach metrics, and absorb
`json.JSONDecodeError` into the fallback dict.  Any other exception (none is
expected, but `result['metrics'] = metrics` can raise `TypeError`)
propagates. -/
def generate_flashcards (response : Str) (metrics : JVal) : Except PyErr JVal :=
  match (do
      let result ← extractJsonL response
      setItem result "metrics".data metrics : Except PyErr JVal) with
  | .ok r => .ok r
  | .error (.jsonDecodeError e) => .ok (flashcardsFallback e metrics response)
  | .error err => .error err

/-- The fallback dict `generate_quiz`'s `except` branch actually builds in the
committed source (generator.py lines 85-93): the study-guide shape, not the
quiz shape. -/
def quizFallbackAsWritten (e : Str) (metrics : JVal) (response : Str) : JVal :=
  .obj [("title".data, .str "Error".data),
        ("overview".data, .str "Error parsing response".data),
        ("sections".data, .arr []),
        ("learning_objectives".data, .arr [.str e]),
        ("review_questions".data, .arr []),
        ("metrics".data, metrics),
        ("raw_response".data, .str response)]

/-- The quiz-shaped sentinel fallback that the spec documents; in the
committed source this dict sits only in the orphaned, unreachable text after
the mangled line 107. -/
def quizFallbackDocumented (e : Str) (metrics : JVal) (response : Str) : JVal :=
  .obj [("quiz".data,
          .arr [.obj [("question".data, .str "Error parsing response".data),
                      ("options".data, .arr []),
                      ("correct_answer".data, .num 0 0),
                      ("explanation".data, .str e),
                      ("difficulty".data, .str "error".data),
                      ("topic".data, .str "error".data)]]),
        ("metrics".data, metrics),
        ("raw_response".data, .str response)]

/-- `StudyMaterialGenerator.generate_quiz`, from the provider response
onwards (generator.py lines 78-93), exactly as committed. -/
def generate_quiz (response : Str) (metrics : JVal) : Except PyErr JVal :=
  match (do
      let result ← extractJsonL response
      setItem result "metrics".data metrics : Except PyErr JVal) with
  | .ok r => .ok r
  | .error (.jsonDecodeError e) => .ok (quizFallbackAsWritten e metrics response)
  | .error err => .error err

/-- The `length_guide` dict of `generate_summary` (generator.py lines
119-123). -/
def length_guide : List (String × String) :=
  [("short", "2-3 sentences"),
   ("medium", "1 paragraph (5-7 sentences)"),
   ("long", "2-3 paragraphs")]

/-- `length_guide.get(length, length_guide['medium'])` from the
`generate_summary` prompt (generator.py line 129). -/
def summaryLengthHint (length : String) : String :=
  (length_guide.lookup length).getD ((length_guide.lookup "medium").getD "")

/-- The prompt `generate_summary` sends to the provider (generator.py lines
129-142). -/
def summaryPrompt (content : String) (length : String) : String :=
  "Summarize the following content in " ++ summaryLengthHint length ++ ".\n\nContent:\n"
    ++ content
    ++ "\n\nReturn a JSON object with this structure:\n\x7b\n    \"summary\": \"Your summary here\",\n    \"key_points\": [\"Point 1\", \"Point 2\", \"Point 3\"],\n    \"main_topics\": [\"Topic 1\", \"Topic 2\"],\n    \"word_count\": <number>\n\x7d\n\nFocus on main ideas and critical information."

/-! ## `config/settings.py` -/

/-- Default OpenAI model (settings.py line 16, with no environment
override). -/
def OPENAI_MODEL : String := "gpt-3.5-turbo"

/-- Default Groq model (settings.py line 17, with no environment
override). -/
def GROQ_MODEL : String := "llama-3.1-70b-versatile"

/-- The static price table (settings.py lines 53-64), USD per million tokens
as exact rationals: per model, `(input price, output price)`. -/
def PRICING : List (String × List (String × ℚ × ℚ)) :=
  [("openai",
    [("gpt-3.5-turbo", (0.50, 1.50)),
     ("gpt-4", (30.00, 60.00)),
     ("gpt-4-turbo", (10.00, 30.00))]),
   ("groq",
    [("llama-3.1-70b-versatile", (0.59, 0.79)),
     ("llama-3.1-8b-instant", (0.05, 0.08)),
     ("mixtral-8x7b-32768", (0.24, 0.24))])]

/-! ## `core/ai_providers.py` -/

/-- The nested lookup `PRICING[provider][model]`; `none` is Python's
`KeyError` at either level. -/
def priceLookup (provider model : String) : Option (ℚ × ℚ) :=
  (PRICING.lookup provider).bind (fun table => table.lookup model)

/-- `AIProvider.calculate_cost` (ai_providers.py lines 24-32): price the
token usage from the table, or 0.0 when the `(provider, model)` pair is
absent (`except KeyError`). -/
def calculate_cost (provider model : String) (input_tokens output_tokens : ℕ) : ℚ :=
  match priceLookup provider model with
  | some pricing =>
    (input_tokens : ℚ) / 1000000 * pricing.1 + (output_tokens : ℚ) / 1000000 * pricing.2
  | none => 0

/-- The two provider classes. -/
inductive ProviderKind where
  | openai
  | groq
deriving DecidableEq, Repr

/-- A constructed provider: its class and the model it was given. -/
structure ProviderInst where
  kind : ProviderKind
  model : String
deriving DecidableEq, Repr

/-- Python `s.lower()` (ASCII, which is all the sources compare). -/
def pyLower (s : String) : String := String.mk (s.data.map Char.toLower)

/-- Python `model or DEFAULT`: `model` unless it is `None` or empty. -/
def pyOrDefault (model : Option String) (dflt : String) : String :=
  match model with
  | none => dflt
  | some s => if s = "" then dflt else s

/-- `get_provider` (ai_providers.py lines 136-143): case-insensitive match on
the provider name; unknown names raise `ValueError`. -/
def get_provider (provider_name : String) (model : Option String) :
    Except String ProviderInst :=
  if pyLower provider_name = "openai" then
    .ok ⟨.openai, pyOrDefault model OPENAI_MODEL⟩
  else if pyLower provider_name = "groq" then
    .ok ⟨.groq, pyOrDefault model GROQ_MODEL⟩
  else
    .error ("Unknown provider: " ++ provider_name)

/-- The `usage` record of a chat-completion response. -/
structure Usage where
  prompt_tokens : ℕ
  completion_tokens : ℕ
  total_tokens : ℕ

/-- What a successful chat-completion API call yields. -/
structure ApiResponse where
  content : String
  usage : Usage
  finish_reason : String

/-- The metrics dict both providers build on success (ai_providers.py lines
69-78 and 120-129). -/
structure Metrics where
  provider : String
  model : String
  response_time : ℚ
  token_usage : ℕ
  input_tokens : ℕ
  output_tokens : ℕ
  cost : ℚ
  finish_reason : String

/-- The messages list both `generate` methods build (ai_providers.py lines
43-48): optional system message, then the user prompt. -/
def buildMessages (prompt : String) (system_prompt : Option String) :
    List (String × String) :=
  (match system_prompt with
   | some sp => [("system", sp)]
   | none => []) ++ [("user", prompt)]

/-- `OpenAIProvider.generate` (ai_providers.py lines 41-83).  The network
call is the oracle `call`; `elapsed` is the measured wall-clock time.  On an
API failure the method re-raises `Exception(f"OpenAI API error: ...")`; on
success it returns the content together with the fully populated metrics. -/
def openai_generate (model prompt : String) (system_prompt : Option String)
    (call : List (String × String) → Except String ApiResponse) (elapsed : ℚ) :
    Except String (String × Metrics) :=
  match call (buildMessages prompt system_prompt) with
  | .error e => .error ("OpenAI API error: " ++ e)
  | .ok r =>
    .ok (r.content,
      { provider := "openai"
        model := model
        response_time := elapsed
        token_usage := r.usage.total_tokens
        input_tokens := r.usage.prompt_tokens
        output_tokens := r.usage.completion_tokens
        cost := calculate_cost "openai" model r.usage.prompt_tokens r.usage.completion_tokens
        finish_reason := r.finish_reason })

/-- `GroqProvider.generate` (ai_providers.py lines 92-134), identical up to
the provider name. -/
def groq_generate (model prompt : String) (system_prompt : Option String)
    (call : List (String × String) → Except String ApiResponse) (elapsed : ℚ) :
    Except String (String × Metrics) :=
  match call (buildMessages prompt system_prompt) with
  | .error e => .error ("Groq API error: " ++ e)
  | .ok r =>
    .ok (r.content,
      { provider := "groq"
        model := model
        response_time := elapsed
        token_usage := r.usage.total_tokens
        input_tokens := r.usage.prompt_tokens
        output_tokens := r.usage.completion_tokens
        cost := calculate_cost "groq" model r.usage.prompt_tokens r.usage.completion_tokens
        finish_reason := r.finish_reason })

/-! ## `core/document_parser.py` -/

/-- Python `content.split()` (no separator): split on whitespace runs,
dropping empty parts. -/
def pySplitWhitespace (s : Str) : List Str :=
  (s.splitOnP pyIsSpace).filter (fun w => !w.isEmpty)

/-- The dict `get_content_stats` returns. -/
structure ContentStats where
  character_count : ℕ
  word_count : ℕ
  sentence_count : ℕ
  avg_word_length : ℚ
deriving DecidableEq, Repr

/-- Python `/` on numbers: raises `ZeroDivisionError` on a zero
denominator. -/
def pyDiv (a b : ℚ) : Except PyErr ℚ :=
  if b = 0 then .error .zeroDivisionError else .ok (a / b)

/-- `DocumentParser.get_content_stats` (document_parser.py lines 86-97).
The average word length divides only under the `if words` guard. -/
def get_content_stats (content : Str) : Except PyErr ContentStats := do
  let words := pySplitWhitespace content
  let sentences := pySplit ['.'] content
  let avg ←
    if words.isEmpty then pure (0 : ℚ)
    else pyDiv ((words.map List.length).sum : ℚ) (words.length : ℚ)
  pure { character_count := content.length
         word_count := words.length
         sentence_count := (sentences.filter (fun s => !(trimL s).isEmpty)).length
         avg_word_length := avg }

/-! ## General lemmas about the string primitives -/

theorem isPrefixL_iff (a b : Str) : isPrefixL a b = true ↔ a <+: b := by
  induction a generalizing b with
  | nil => simp [isPrefixL]
  | cons x xs ih =>
    cases b with
    | nil => simp [isPrefixL]
    | cons y ys => simp [isPrefixL, List.cons_prefix_cons, ih, Bool.and_eq_true, beq_iff_eq]

theorem isPrefixL_self_append (a b : Str) : isPrefixL a (a ++ b) = true :=
  (isPrefixL_iff _ _).mpr (List.prefix_append a b)

theorem breakOn_eq_append {sep : Str} :
    ∀ {s pre post : Str}, breakOn sep s = some (pre, post) → s = pre ++ sep ++ post := by
  intro s
  induction s with
  | nil =>
    intro pre post h
    unfold breakOn at h
    split at h
    · next hp =>
      have : sep = [] := by simpa using (isPrefixL_iff sep []).mp hp
      simp at h
      simp [h.1, h.2, this]
    · simp at h
  | cons c rest ih =>
    intro pre post h
    unfold breakOn at h
    split at h
    · next hp =>
      obtain ⟨t, ht⟩ := (isPrefixL_iff _ _).mp hp
      have hdrop : (c :: rest).drop sep.length = t := by
        rw [← ht]; exact List.drop_left sep t
      rw [hdrop] at h
      rcases h with ⟨rfl, rfl⟩
      simp [← ht]
    · revert h
      cases hb : breakOn sep rest with
      | none => intro h; simp at h
      | some p =>
        intro h
        simp at h
        have := @ih p.1 p.2 (by rw [hb])
        rw [← h.1, ← h.2]
        simp [this]

theorem breakOn_isSome_of_startsWith {sep s : Str} (h : isPrefixL sep s = true) :
    (breakOn sep s).isSome := by
  cases s with
  | nil => simp [breakOn, h]
  | cons c rest => simp [breakOn, h]

theorem containsL_append_mid (sep a b : Str) : containsL sep (a ++ sep ++ b) = true := by
  induction a with
  | nil =>
    simp only [containsL, List.nil_append]
    simpa using breakOn_isSome_of_startsWith (isPrefixL_self_append sep b)
  | cons x a' ih =>
    simp only [containsL, List.cons_append, List.append_assoc] at *
    unfold breakOn
    split
    · simp
    · rcases hb : breakOn sep (a' ++ (sep ++ b)) with _ | p
      · rw [hb] at ih; simp at ih
      · simp [hb]

theorem containsL_pattern_mono {p q s : Str} (hpq : p <+: q) (h : containsL q s = true) :
    containsL p s = true := by
  have hsome : (breakOn q s).isSome := by simpa [containsL] using h
  rcases hb : breakOn q s with _ | pr
  · rw [hb] at hsome; simp at hsome
  · have hs := breakOn_eq_append hb
    obtain ⟨r, hr⟩ := hpq
    have hs' : s = pr.1 ++ p ++ (r ++ pr.2) := by
      rw [hs, ← hr]; simp [List.append_assoc]
    rw [hs']
    exact containsL_append_mid p pr.1 (r ++ pr.2)

theorem breakOn_at_start {sep : Str} (b : Str) (hsep : sep ≠ []) :
    breakOn sep (sep ++ b) = some ([], b) := by
  cases sep with
  | nil => exact absurd rfl hsep
  | cons c sep' =>
    show breakOn (c :: sep') (c :: (sep' ++ b)) = _
    unfold breakOn
    rw [if_pos (show isPrefixL (c :: sep') (c :: (sep' ++ b)) = true from
          isPrefixL_self_append (c :: sep') b)]
    have : (c :: (sep' ++ b)).drop (c :: sep').length = b := by
      show (sep' ++ b).drop (sep'.length + 1 - 1) = b
      simp [List.drop_left]
    rw [this]

theorem breakOn_cons_no_start {sep : Str} {c : Char} {t : Str}
    (h : isPrefixL sep (c :: t) = false) :
    breakOn sep (c :: t) = (breakOn sep t).map (fun p => (c :: p.1, p.2)) := by
  conv_lhs => unfold breakOn
  rw [h]
  simp only [Bool.false_eq_true, if_false]
  cases breakOn sep t with
  | none => rfl
  | some p => rfl

theorem containsL_cons_mono {sep : Str} {a : Char} {t : Str}
    (h : containsL sep t = true) : containsL sep (a :: t) = true := by
  simp only [containsL] at *
  unfold breakOn
  split
  · simp
  · rcases hb : breakOn sep t with _ | p
    · rw [hb] at h; simp at h
    · simp [hb]

theorem breakOn_pre_none {sep : Str} (hsep : sep ≠ []) :
    ∀ {s pre post : Str}, breakOn sep s = some (pre, post) → breakOn sep pre = none := by
  intro s
  induction s with
  | nil =>
    intro pre post h
    unfold breakOn at h
    split at h
    · next hp =>
      exact absurd (by simpa using (isPrefixL_iff sep []).mp hp) hsep
    · simp at h
  | cons c rest ih =>
    intro pre post h
    unfold breakOn at h
    split at h
    · rcases h with ⟨rfl, rfl⟩
      cases sep with
      | nil => exact absurd rfl hsep
      | cons x xs => rfl
    · next hnp =>
      revert h
      rcases hb : breakOn sep rest with _ | p
      · intro h; simp at h
      · intro h
        rcases h with ⟨rfl, rfl⟩
        have hrest : rest = p.1 ++ sep ++ p.2 := breakOn_eq_append hb
        have hnp' : isPrefixL sep (c :: p.1) = false := by
          by_contra hcontra
          have hcp : sep <+: c :: p.1 :=
            (isPrefixL_iff _ _).mp (by revert hcontra; cases isPrefixL sep (c :: p.1) <;> simp)
          have hbig : (c :: p.1) <+: (c :: rest) := by
            refine ⟨sep ++ p.2, ?_⟩
            simp [hrest, List.append_assoc]
          have : sep <+: c :: rest := hcp.trans hbig
          rw [(isPrefixL_iff _ _).mpr this] at hnp
          simp at hnp
        rw [breakOn_cons_no_start hnp', @ih p.1 p.2 (by rw [hb])]
        rfl

theorem not_prefix_across {sep u : Str} {c : Char} {d : Str}
    (h1 : containsL sep u = false) (h2 : c ∉ sep) :
    isPrefixL sep (u ++ c :: d) = false := by
  by_contra hcontra
  have hp : sep <+: u ++ c :: d :=
    (isPrefixL_iff _ _).mp (by revert hcontra; cases isPrefixL sep (u ++ c :: d) <;> simp)
  have hu : u <+: u ++ c :: d := List.prefix_append u (c :: d)
  rcases List.prefix_or_prefix_of_prefix hp hu with hsu | hus
  · obtain ⟨t, ht⟩ := hsu
    have : containsL sep u = true := by
      rw [← ht]
      simpa using containsL_append_mid sep [] t
    rw [this] at h1; simp at h1
  · obtain ⟨t, ht⟩ := hus
    cases t with
    | nil =>
      have hu' : u = sep := by simpa using ht
      have : containsL sep u = true := by
        rw [hu']
        simpa using containsL_append_mid sep [] []
      rw [this] at h1; simp at h1
    | cons e t' =>
      have hts : u ++ e :: t' <+: u ++ c :: d := ht ▸ hp
      have het : e :: t' <+: c :: d := (List.prefix_append_right_inj u).mp hts
      have hec : e = c := (List.cons_prefix_cons.mp het).1
      have : c ∈ sep := by
        rw [← ht, ← hec]
        exact List.mem_append_right u (List.mem_cons_self e t')
      exact h2 this

theorem breakOn_append {sep u : Str} {c : Char} (d : Str)
    (h1 : containsL sep u = false) (h2 : c ∉ sep) :
    breakOn sep (u ++ c :: d) = (breakOn sep (c :: d)).map (fun p => (u ++ p.1, p.2)) := by
  induction u with
  | nil =>
    simp only [List.nil_append]
    cases breakOn sep (c :: d) with
    | none => rfl
    | some p => rfl
  | cons a u' ih =>
    have h1' : containsL sep u' = false := by
      by_contra hcontra
      have : containsL sep u' = true := by
        revert hcontra; cases containsL sep u' <;> simp
      rw [containsL_cons_mono this] at h1; simp at h1
    have hnp : isPrefixL sep ((a :: u') ++ c :: d) = false := not_prefix_across h1 h2
    rw [List.cons_append, breakOn_cons_no_start (by simpa using hnp), ih h1']
    cases breakOn sep (c :: d) with
    | none => rfl
    | some p => rfl

theorem pySplitFuel_get0 {f : Nat} {sep s : Str} (hf : 1 ≤ f) :
    (pySplitFuel f sep s).get? 0 = some (beforeFirst sep s) := by
  cases f with
  | zero => omega
  | succ f' =>
    unfold pySplitFuel beforeFirst
    cases breakOn sep s with
    | none => rfl
    | some p => rfl

theorem pySplit_get0 (sep s : Str) : (pySplit sep s).get? 0 = some (beforeFirst sep s) :=
  pySplitFuel_get0 (by omega)

theorem pySplit_get1 {sep s : Str} (hsep : sep ≠ []) (h : containsL sep s = true) :
    (pySplit sep s).get? 1 = some (beforeFirst sep (afterFirst sep s)) := by
  have hsome : (breakOn sep s).isSome := by simpa [containsL] using h
  rcases hb : breakOn sep s with _ | p
  · rw [hb] at hsome; simp at hsome
  · have hs : s = p.1 ++ sep ++ p.2 := breakOn_eq_append hb
    have hlen : 1 ≤ s.length := by
      rw [hs]
      cases sep with
      | nil => exact absurd rfl hsep
      | cons x xs => simp; omega
    unfold pySplit
    rcases Nat.exists_eq_add_of_le hlen with ⟨k, hk⟩
    rw [show s.length + 1 = k + 1 + 1 by omega]
    unfold pySplitFuel
    rw [hb]
    show (pySplitFuel (k + 1) sep p.2).get? 0 = _
    rw [pySplitFuel_get0 (by omega)]
    unfold afterFirst
    rw [hb]

theorem beforeFirst_before (sep : Str) (hsep : sep ≠ []) (x : Str) :
    beforeFirst sep (beforeFirst sep x) = beforeFirst sep x := by
  unfold beforeFirst
  rcases hb : breakOn sep x with _ | p
  · rw [hb]
  · rw [breakOn_pre_none hsep hb]

/-- The index `[1]` of the split never raises `IndexError`: it is guarded by
the preceding `in` test. -/
theorem pyGet_split1 {sep s : Str} (hsep : sep ≠ []) (h : containsL sep s = true) :
    pyGet (pySplit sep s) 1 = .ok (beforeFirst sep (afterFirst sep s)) := by
  unfold pyGet
  rw [pySplit_get1 hsep h]

/-- The index `[0]` of a split never raises `IndexError`. -/
theorem pyGet_split0 (sep x : Str) : pyGet (pySplit sep x) 0 = .ok (beforeFirst sep x) := by
  unfold pyGet
  rw [pySplit_get0]

/-! ## Trim lemmas -/

theorem ltrim_cons_ws {c : Char} (h : pyIsSpace c = true) (s : Str) :
    ltrimL (c :: s) = ltrimL s := by
  simp [ltrimL, List.dropWhile_cons, h]

theorem trim_cons_ws {c : Char} (h : pyIsSpace c = true) (s : Str) :
    trimL (c :: s) = trimL s := by
  simp [trimL, ltrim_cons_ws h]

theorem ltrim_append (x y : Str) :
    ltrimL (x ++ y) = if (ltrimL x).isEmpty then ltrimL y else ltrimL x ++ y := by
  simp [ltrimL, List.dropWhile_append]

theorem trim_append_ws {c : Char} (h : pyIsSpace c = true) (s : Str) :
    trimL (s ++ [c]) = trimL s := by
  unfold trimL
  rw [ltrim_append]
  rcases he : (ltrimL s).isEmpty with _ | _
  · simp only [he, Bool.false_eq_true, if_false]
    unfold rtrimL
    rw [List.reverse_append]
    simp only [List.reverse_cons, List.reverse_nil, List.nil_append, List.singleton_append]
    rw [ltrim_cons_ws h]
  · simp only [he, if_true]
    have hnil : ltrimL s = [] := by simpa [List.isEmpty_iff] using he
    have : ltrimL [c] = [] := by simp [ltrimL, List.dropWhile_cons, h]
    rw [this, hnil]

/-! ## Characterisation of the extraction step -/

theorem fence_ne_nil : fence ≠ [] := by decide

theorem fenceJson_ne_nil : fenceJson ≠ [] := by decide

theorem fence_prefix_fenceJson : fence <+: fenceJson := ⟨"json".data, rfl⟩

theorem extractJsonL_eq_splitCandidate (r : Str) :
    extractJsonL r = jsonLoads (trimL (splitCandidate r)) := by
  unfold extractJsonL splitCandidate
  rcases h1 : containsL fenceJson r with _ | _
  · rcases h2 : containsL fence r with _ | _
    · simp only [Bool.false_eq_true, if_false]
      rfl
    · simp only [Bool.false_eq_true, if_false, if_true]
      simp only [pyGet_split1 fence_ne_nil h2, pyGet_split0]
      show jsonLoads (trimL (beforeFirst fence (beforeFirst fence (afterFirst fence r)))) = _
      rw [beforeFirst_before fence fence_ne_nil]
  · simp only [if_true]
    simp only [pyGet_split1 fenceJson_ne_nil h1, pyGet_split0]
    rfl

theorem jsonLoads_error_shape {s : Str} {e : PyErr} (h : jsonLoads s = .error e) :
    ∃ m, e = .jsonDecodeError m := by
  unfold jsonLoads at h
  revert h
  rcases parseVal (s.length + 1) s with m | ⟨v, rest⟩
  · intro h
    simp at h
    exact ⟨m, h.symm⟩
  · intro h
    by_cases hw : skipWs rest = [] <;> simp [hw] at h
    exact ⟨_, h.symm⟩

theorem extractJsonL_error_shape {r : Str} {e : PyErr} (h : extractJsonL r = .error e) :
    ∃ m, e = .jsonDecodeError m := by
  rw [extractJsonL_eq_splitCandidate] at h
  exact jsonLoads_error_shape h

theorem containsL_fence_cons_false {t : Str} (h : containsL fence t = false) :
    containsL fence ('\n' :: t) = false := by
  have hnp : isPrefixL fence ('\n' :: t) = false := by
    show isPrefixL ('`' :: '`' :: '`' :: ([] : Str)) ('\n' :: t) = false
    simp [isPrefixL]
  have hnone : breakOn fence t = none := by
    rcases hb : breakOn fence t with _ | p
    · rfl
    · rw [show containsL fence t = true from by simp [containsL, hb]] at h
      simp at h
  rw [show containsL fence ('\n' :: t)
        = ((breakOn fence t).map (fun p => ('\n' :: p.1, p.2))).isSome from by
      rw [containsL, breakOn_cons_no_start hnp]]
  rw [hnone]
  rfl

theorem containsL_fenceJson_of_fence_false {x : Str} (h : containsL fence x = false) :
    containsL fenceJson x = false := by
  rcases hc : containsL fenceJson x with _ | _
  · rfl
  · rw [containsL_pattern_mono fence_prefix_fenceJson hc] at h
    simp at h

/-- Wrapping a fence-free text in a tagged markdown fence is invisible to the
extraction step. -/
theorem extractJsonL_fenced (t : Str) (h : containsL fence t = false) :
    extractJsonL ("```json\n".data ++ t ++ "\n```".data) = extractJsonL t := by
  rw [extractJsonL_eq_splitCandidate, extractJsonL_eq_splitCandidate]
  have hJt : containsL fenceJson t = false := containsL_fenceJson_of_fence_false h
  have hbare : splitCandidate t = t := by
    unfold splitCandidate
    rw [hJt, h]
    simp
  have hshape : "```json\n".data ++ t ++ "\n```".data
      = fenceJson ++ ('\n' :: (t ++ '\n' :: fence)) := by
    rw [show "```json\n".data = fenceJson ++ ['\n'] from rfl,
        show "\n```".data = '\n' :: fence from rfl]
    simp [List.append_assoc]
  have hcontains : containsL fenceJson (fenceJson ++ ('\n' :: (t ++ '\n' :: fence))) = true := by
    simpa using containsL_append_mid fenceJson [] ('\n' :: (t ++ '\n' :: fence))
  have hrest : '\n' :: (t ++ '\n' :: fence) = ('\n' :: t) ++ ('\n' :: fence) := by simp
  have hn_t : containsL fence ('\n' :: t) = false := containsL_fence_cons_false h
  have hJn_t : containsL fenceJson ('\n' :: t) = false :=
    containsL_fenceJson_of_fence_false hn_t
  have hafter : afterFirst fenceJson (fenceJson ++ ('\n' :: (t ++ '\n' :: fence)))
      = '\n' :: (t ++ '\n' :: fence) := by
    unfold afterFirst
    rw [breakOn_at_start _ fenceJson_ne_nil]
  have hinner : beforeFirst fenceJson ('\n' :: (t ++ '\n' :: fence))
      = '\n' :: (t ++ '\n' :: fence) := by
    unfold beforeFirst
    rw [hrest, breakOn_append fence hJn_t (by decide)]
    rw [show breakOn fenceJson ('\n' :: fence) = none from rfl]
    rfl
  have houter : beforeFirst fence ('\n' :: (t ++ '\n' :: fence))
      = ('\n' :: t) ++ ['\n'] := by
    unfold beforeFirst
    rw [hrest, breakOn_append fence hn_t (by decide)]
    rw [show breakOn fence ('\n' :: fence) = some (['\n'], []) from rfl]
    rfl
  have hfenced : splitCandidate ("```json\n".data ++ t ++ "\n```".data)
      = ('\n' :: t) ++ ['\n'] := by
    unfold splitCandidate
    rw [hshape, hcontains]
    simp only [if_true]
    rw [hafter, hinner, houter]
  rw [hfenced, hbare]
  rw [trim_append_ws (by decide) ('\n' :: t), trim_cons_ws (by decide) t]

/-! ## The claims -/

/-- C1: for every pair of token counts, `calculate_cost` returns exactly
`input_tokens/1e6 * input_price + output_tokens/1e6 * output_price` when the
`(provider, model)` pair is in the price table, and 0.0 without raising when
it is absent. -/
theorem claim_C1_calculate_cost (provider model : String) (it ot : ℕ) :
    (∀ ip op : ℚ, priceLookup provider model = some (ip, op) →
        calculate_cost provider model it ot
          = (it : ℚ) / 1000000 * ip + (ot : ℚ) / 1000000 * op) ∧
    (priceLookup provider model = none → calculate_cost provider model it ot = 0) := by
  constructor
  · intro ip op h
    unfold calculate_cost
    rw [h]
  · intro h
    unfold calculate_cost
    rw [h]

/-- Witness for C1: a priced pair and an absent pair, evaluated. -/
theorem claim_C1_witness :
    calculate_cost "openai" "gpt-4" 3 5
      = (3 : ℚ) / 1000000 * 30 + (5 : ℚ) / 1000000 * 60 ∧
    calculate_cost "openai" "gpt-5" 3 5 = 0 :=
  ⟨(claim_C1_calculate_cost "openai" "gpt-4" 3 5).1 30 60
      (by norm_num [priceLookup, PRICING, List.lookup,
        show (("gpt-4" : String) == "gpt-3.5-turbo") = false by decide]),
   (claim_C1_calculate_cost "openai" "gpt-5" 3 5).2
      (by norm_num [priceLookup, PRICING, List.lookup,
        show (("gpt-5" : String) == "gpt-3.5-turbo") = false by decide,
        show (("gpt-5" : String) == "gpt-4") = false by decide,
        show (("gpt-5" : String) == "gpt-4-turbo") = false by decide])⟩

/-- C2 (code-bug evidence): on a response that fails JSON parsing,
`generate_quiz` as committed returns the study-guide-shaped fallback — it has
a `title` field and no `quiz` field — while the quiz-shaped sentinel of the
spec exists only as `quizFallbackDocumented`, matching the orphaned dict in
the mangled region of the source file. -/
theorem claim_C2_quiz_fallback_shape :
    generate_quiz "not json".data (JVal.obj [])
        = .ok (quizFallbackAsWritten "Expecting value".data (JVal.obj []) "not json".data) ∧
    jGet (quizFallbackAsWritten "Expecting value".data (JVal.obj []) "not json".data)
        "quiz".data = none ∧
    jGet (quizFallbackAsWritten "Expecting value".data (JVal.obj []) "not json".data)
        "title".data = some (.str "Error".data) ∧
    jGet (quizFallbackDocumented "Expecting value".data (JVal.obj []) "not json".data)
        "quiz".data
      = some (.arr [.obj [("question".data, .str "Error parsing response".data),
                          ("options".data, .arr []),
                          ("correct_answer".data, .num 0 0),
                          ("explanation".data, .str "Expecting value".data),
                          ("difficulty".data, .str "error".data),
                          ("topic".data, .str "error".data)]]) :=
  ⟨rfl, rfl, rfl, rfl⟩

/-- C3 is refuted as stated: the response text `"1"` is valid JSON but not an
object, so `result['metrics'] = metrics` raises a `TypeError` that the
`except json.JSONDecodeError` clause does not catch, and
`generate_flashcards` propagates it to the caller. -/
theorem claim_C3_counterexample :
    generate_flashcards "1".data (JVal.obj [])
      = .error (.typeError "object does not support item assignment".data) := rfl

/-- C3 (amended): for every response text that fails JSON parsing or parses
to a JSON object, `generate_flashcards` does not raise — the parse failure is
absorbed locally into the uniform fallback payload. -/
theorem claim_C3_amended (response : Str) (metrics : JVal)
    (hobj : ∀ v, extractJsonL response = .ok v → ∃ fields, v = JVal.obj fields) :
    ∃ result, generate_flashcards response metrics = .ok result := by
  unfold generate_flashcards
  rcases he : extractJsonL response with e | v
  · obtain ⟨m, rfl⟩ := extractJsonL_error_shape he
    exact ⟨_, rfl⟩
  · obtain ⟨fields, rfl⟩ := hobj v he
    exact ⟨_, rfl⟩

/-- Witness for the amended C3: a response that fails to parse is absorbed. -/
theorem claim_C3_witness :
    ∃ result, generate_flashcards "not json".data (JVal.obj []) = .ok result :=
  claim_C3_amended "not json".data (JVal.obj [])
    (by
      intro v h
      rw [show extractJsonL "not json".data
            = Except.error (PyErr.jsonDecodeError "Expecting value".data) from rfl] at h
      exact Except.noConfusion h)

/-- C4 is refuted as stated: on `"'''json1''''jsonZ"` (with backticks) the
claimed candidate — the content between the first `'''json` tag and the next
fence — is `"1"`, which parses, but the committed `split` chain first
truncates at the second, overlapping `'''json` occurrence and yields `"1'"`,
which fails to parse. -/
theorem claim_C4_counterexample :
    containsL fenceJson "```json1````jsonZ".data = true ∧
    claimedCandidate "```json1````jsonZ".data = ['1'] ∧
    jsonLoads (trimL (claimedCandidate "```json1````jsonZ".data)) = .ok (.num 1 0) ∧
    extractJsonL "```json1````jsonZ".data = .error (.jsonDecodeError "Extra data".data) ∧
    extractJsonL "```json1````jsonZ".data
      ≠ jsonLoads (trimL (claimedCandidate "```json1````jsonZ".data)) := by
  refine ⟨rfl, rfl, rfl, rfl, ?_⟩
  intro hcontra
  rw [show extractJsonL "```json1````jsonZ".data
        = Except.error (PyErr.jsonDecodeError "Extra data".data) from rfl] at hcontra
  rw [show jsonLoads (trimL (claimedCandidate "```json1````jsonZ".data))
        = Except.ok (JVal.num 1 0) from rfl] at hcontra
  exact Except.noConfusion hcontra

/-- C4 (amended): for every input string the extraction step parses, after
trimming, the candidate computed by the `split` chain: in the tagged branch
the text after the first `'''json` truncated at the next non-overlapping
`'''json` occurrence and then at the next fence; in the plain branch the
content of the first fence pair; otherwise the whole string. -/
theorem claim_C4_amended (response : Str) :
    extractJsonL response = jsonLoads (trimL (splitCandidate response)) :=
  extractJsonL_eq_splitCandidate response

/-- C5 is refuted as stated: the JSON object text `t` below contains a
backtick fence inside a string literal, so the bare text takes the
fence-stripping path and extracts `1`, while the wrapped text fails to parse:
fence-wrapping is not invisible for such `t`. -/
theorem claim_C5_counterexample :
    jsonLoads "\x7b\"x\": \"```1```\"\x7d".data
      = .ok (.obj [("x".data, .str "```1```".data)]) ∧
    extractJsonL "\x7b\"x\": \"```1```\"\x7d".data = .ok (.num 1 0) ∧
    extractJsonL ("```json\n".data ++ "\x7b\"x\": \"```1```\"\x7d".data ++ "\n```".data)
      = .error (.jsonDecodeError "Unterminated string".data) ∧
    extractJsonL ("```json\n".data ++ "\x7b\"x\": \"```1```\"\x7d".data ++ "\n```".data)
      ≠ extractJsonL "\x7b\"x\": \"```1```\"\x7d".data := by
  refine ⟨rfl, rfl, rfl, ?_⟩
  intro hcontra
  rw [show extractJsonL
        ("```json\n".data ++ "\x7b\"x\": \"```1```\"\x7d".data ++ "\n```".data)
        = Except.error (PyErr.jsonDecodeError "Unterminated string".data) from rfl] at hcontra
  rw [show extractJsonL "\x7b\"x\": \"```1```\"\x7d".data
        = Except.ok (JVal.num 1 0) from rfl] at hcontra
  exact Except.noConfusion hcontra

/-- C5 (amended): for every text `t` containing no triple-backtick — in
particular every JSON object text without one — extraction of the
`'''json`-fenced wrapping of `t` yields exactly the extraction of bare
`t`. -/
theorem claim_C5_amended (t : Str) (h : containsL fence t = false) :
    extractJsonL ("```json\n".data ++ t ++ "\n```".data) = extractJsonL t :=
  extractJsonL_fenced t h

/-- Witness for the amended C5: a fenced JSON object equals its bare form. -/
theorem claim_C5_witness :
    extractJsonL ("```json\n".data ++ "\x7b\"a\": 1\x7d".data ++ "\n```".data)
      = extractJsonL "\x7b\"a\": 1\x7d".data :=
  claim_C5_amended "\x7b\"a\": 1\x7d".data (by decide)

/-- C6 is refuted as stated: `"OpenAI"` differs from both configured names
`"openai"` and `"groq"`, yet `get_provider` succeeds because the factory
lowercases its argument before comparing. -/
theorem claim_C6_counterexample :
    (("OpenAI" : String) ≠ "openai" ∧ ("OpenAI" : String) ≠ "groq") ∧
    get_provider "OpenAI" none = .ok ⟨.openai, "gpt-3.5-turbo"⟩ :=
  ⟨⟨by decide, by decide⟩, rfl⟩

/-- C6 (amended): for every provider name whose lowercase form is neither
`"openai"` nor `"groq"`, `get_provider` fails with the unknown-provider
error, and no provider object (hence no network client) is built. -/
theorem claim_C6_amended (s : String) (m : Option String)
    (h1 : pyLower s ≠ "openai") (h2 : pyLower s ≠ "groq") :
    get_provider s m = .error ("Unknown provider: " ++ s) := by
  unfold get_provider
  rw [if_neg h1, if_neg h2]

/-- Witness for the amended C6. -/
theorem claim_C6_witness :
    get_provider "mistral" none = .error ("Unknown provider: " ++ "mistral") :=
  claim_C6_amended "mistral" none (by decide) (by decide)

/-- C7: `generate_summary`'s length maps to its instruction hint —
`short` to `2-3 sentences`, `medium` to the one-paragraph hint, `long` to
`2-3 paragraphs` — and every other length falls back to the `medium` hint,
never failing. -/
theorem claim_C7_summary_length :
    summaryLengthHint "short" = "2-3 sentences" ∧
    summaryLengthHint "medium" = "1 paragraph (5-7 sentences)" ∧
    summaryLengthHint "long" = "2-3 paragraphs" ∧
    ∀ length : String, length ≠ "short" → length ≠ "medium" → length ≠ "long" →
      summaryLengthHint length = summaryLengthHint "medium" := by
  refine ⟨rfl, rfl, rfl, ?_⟩
  intro length h1 h2 h3
  unfold summaryLengthHint length_guide
  simp [List.lookup, beq_eq_false_iff_ne.mpr h1, beq_eq_false_iff_ne.mpr h2,
    beq_eq_false_iff_ne.mpr h3]

/-- Witness for C7: an unknown length value falls back to the medium hint. -/
theorem claim_C7_witness : summaryLengthHint "bullet" = summaryLengthHint "medium" :=
  claim_C7_summary_length.2.2.2 "bullet" (by decide) (by decide) (by decide)

/-- C8: when the underlying API call fails, both providers' `generate` fails
with an error carrying the provider name and the underlying message, and no
(partial) metrics record is returned. -/
theorem claim_C8_provider_error (model prompt : String) (sys : Option String)
    (call : List (String × String) → Except String ApiResponse) (elapsed : ℚ)
    (e : String) (h : call (buildMessages prompt sys) = .error e) :
    openai_generate model prompt sys call elapsed
      = .error ("OpenAI API error: " ++ e) ∧
    groq_generate model prompt sys call elapsed
      = .error ("Groq API error: " ++ e) := by
  unfold openai_generate groq_generate
  rw [h]
  exact ⟨rfl, rfl⟩

/-- Witness for C8: a failing transport propagates as a provider error. -/
theorem claim_C8_witness :
    openai_generate "gpt-4" "hi" none (fun _ => .error "boom") 0
      = .error ("OpenAI API error: " ++ "boom") ∧
    groq_generate "llama-3.1-70b-versatile" "hi" none (fun _ => .error "boom") 0
      = .error ("Groq API error: " ++ "boom") :=
  ⟨(claim_C8_provider_error "gpt-4" "hi" none (fun _ => .error "boom") 0 "boom" rfl).1,
   (claim_C8_provider_error "llama-3.1-70b-versatile" "hi" none
      (fun _ => .error "boom") 0 "boom" rfl).2⟩

/-- C9: provider matching is case-insensitive — every name whose lowercase
form is `"openai"` or `"groq"` yields the corresponding provider instead of
the unknown-provider error. -/
theorem claim_C9_case_insensitive (s : String) (m : Option String) :
    (pyLower s = "openai" →
      get_provider s m = .ok ⟨.openai, pyOrDefault m OPENAI_MODEL⟩) ∧
    (pyLower s = "groq" →
      get_provider s m = .ok ⟨.groq, pyOrDefault m GROQ_MODEL⟩) := by
  constructor
  · intro h
    unfold get_provider
    rw [if_pos h]
  · intro h
    unfold get_provider
    rw [if_neg (fun hc => by rw [h] at hc; exact absurd hc (by decide)), if_pos h]

/-- Witness for C9: an upper-case provider name succeeds. -/
theorem claim_C9_witness :
    get_provider "GROQ" none = .ok ⟨.groq, "llama-3.1-70b-versatile"⟩ :=
  (claim_C9_case_insensitive "GROQ" none).2 (by decide)

/-- C10: `get_content_stats` returns a statistics record without raising on
every input, the zero-words case included: the division is guarded, and a
content string with no words yields `avg_word_length = 0`. -/
theorem claim_C10_content_stats (content : Str) :
    ∃ st, get_content_stats content = .ok st ∧
      (pySplitWhitespace content = [] → st.avg_word_length = 0) := by
  rcases hw : (pySplitWhitespace content).isEmpty with _ | _
  · have hne : pySplitWhitespace content ≠ [] := by
      intro hnil
      rw [hnil] at hw
      simp at hw
    have hq : ((pySplitWhitespace content).length : ℚ) ≠ 0 := by
      simpa [List.length_eq_zero] using hne
    refine ⟨{ character_count := content.length
              word_count := (pySplitWhitespace content).length
              sentence_count :=
                ((pySplit ['.'] content).filter (fun s => !(trimL s).isEmpty)).length
              avg_word_length :=
                (((pySplitWhitespace content).map List.length).sum : ℚ)
                  / ((pySplitWhitespace content).length : ℚ) }, ?_, ?_⟩
    · unfold get_content_stats
      simp only [hw, Bool.false_eq_true, if_false, pyDiv, if_neg hq]
      rfl
    · intro hnil
      exact absurd hnil hne
  · refine ⟨{ character_count := content.length
              word_count := (pySplitWhitespace content).length
              sentence_count :=
                ((pySplit ['.'] content).filter (fun s => !(trimL s).isEmpty)).length
              avg_word_length := 0 }, ?_, ?_⟩
    · unfold get_content_stats
      simp only [hw, if_true]
      rfl
    · intro hnil
      rfl

/-- Witness for C10: the empty content string. -/
theorem claim_C10_witness :
    ∃ st, get_content_stats [] = .ok st ∧
      (pySplitWhitespace [] = [] → st.avg_word_length = 0) :=
  claim_C10_content_stats []

end StudyAI
